import Mathlib

/-!
Verification of the client-side clone/task/store layer of the
neovate-code desktop client.

Shallow embedding of:
- `src/shared/cloneErrors.ts` (error taxonomy, message lookup, classification)
- `src/renderer/hooks/useClone.ts` (clone task state machine: start, progress
  filtering, cancellation, response handling)
- the session-input store helpers (`getSessionInput`, `setSessionInput`,
  quoted in the design docs) and the `useInputState` hook
- the entity store cascade (`addRepo`/`addWorkspace`/`deleteRepo`), modelled
  from the spec where `store.tsx` is absent from the sources.
-/

/-! ## JavaScript-string helpers -/

/-- Does the character list `s` start with `pat`? (helper for substring search). -/
def listHasPre : List Char → List Char → Bool
  | _, [] => true
  | [], _ :: _ => false
  | c :: s, p :: ps => c == p && listHasPre s ps

/-- Does the character list `s` contain `pat` as a contiguous run?
Mirrors JavaScript `String.prototype.includes`. -/
def listContainsChars (pat : List Char) : List Char → Bool
  | [] => listHasPre [] pat
  | c :: rest => listHasPre (c :: rest) pat || listContainsChars pat rest

/-- JavaScript `s.includes(sub)`: substring containment. -/
def strContains (s sub : String) : Bool :=
  listContainsChars sub.data s.data

/-- JavaScript `s.toLowerCase()` restricted to the alphabets the error
keywords use (ASCII); `Char.toLower` agrees with JS there. -/
def strLower (s : String) : String :=
  String.mk (s.data.map Char.toLower)

/-- JavaScript whitespace for `trim` (the ASCII part, which is all the
sources use). -/
def jsIsSpace (c : Char) : Bool :=
  c == ' ' || c == '\t' || c == '\n' || c == '\r'

/-- JavaScript `s.trim()`: strip leading and trailing whitespace. -/
def jsTrim (s : String) : String :=
  String.mk (((s.data.dropWhile jsIsSpace).reverse.dropWhile jsIsSpace).reverse)

/-- JavaScript `s.startsWith(p)`. -/
def strStartsWith (s p : String) : Bool :=
  listHasPre s.data p.data

/-- JavaScript `s.endsWith(p)`. -/
def strEndsWith (s p : String) : Bool :=
  listHasPre s.data.reverse p.data.reverse

/-- JavaScript `a || b` applied to an optional string: `undefined` and the
empty string are falsy and select `b`; any other string selects itself. -/
def jsOrStr (a : Option String) (b : String) : String :=
  match a with
  | some s => if s = "" then b else s
  | none => b

/-- JavaScript `Math.round` on a (finite, non-NaN) number, modelled on the
rationals: round half toward positive infinity, `⌊q + 1/2⌋`. -/
def jsRound (q : ℚ) : ℤ :=
  ⌊q + 1 / 2⌋

/-- JavaScript `q || 0` on a (finite, non-NaN) number: `0` (falsy) maps to
`0`, everything else to itself — the identity on the rationals. -/
def jsOr0 (q : ℚ) : ℚ :=
  if q = 0 then 0 else q

/-! ## `src/shared/cloneErrors.ts` -/

/-- The `CloneErrorCode` enum of `cloneErrors.ts` (each member's TS value is
its own name as a string). -/
inductive CloneErrorCode where
  | CANCELLED
  | SSH_AUTH_FAILED
  | AUTH_REQUIRED
  | NETWORK_ERROR
  | REPO_NOT_FOUND
  | TIMEOUT
  | GIT_NOT_INSTALLED
  | INVALID_URL
  | DIR_EXISTS
  | UNKNOWN
  deriving DecidableEq, Repr

/-- The string value of a `CloneErrorCode` member (TS string enum). -/
def CloneErrorCode.str : CloneErrorCode → String
  | .CANCELLED => "CANCELLED"
  | .SSH_AUTH_FAILED => "SSH_AUTH_FAILED"
  | .AUTH_REQUIRED => "AUTH_REQUIRED"
  | .NETWORK_ERROR => "NETWORK_ERROR"
  | .REPO_NOT_FOUND => "REPO_NOT_FOUND"
  | .TIMEOUT => "TIMEOUT"
  | .GIT_NOT_INSTALLED => "GIT_NOT_INSTALLED"
  | .INVALID_URL => "INVALID_URL"
  | .DIR_EXISTS => "DIR_EXISTS"
  | .UNKNOWN => "UNKNOWN"

/-- `CloneErrorMessages` record of `cloneErrors.ts`: the canonical
user-facing message for each code. -/
def CloneErrorMessages : CloneErrorCode → String
  | .CANCELLED => "Clone operation cancelled by user"
  | .SSH_AUTH_FAILED =>
      "SSH authentication failed. Please ensure your SSH keys are properly configured."
  | .AUTH_REQUIRED =>
      "Authentication required. This is a private repository.\nPlease use SSH URL with configured SSH keys, or use \"git clone\" in terminal to enter credentials."
  | .NETWORK_ERROR =>
      "Network error. Please check your internet connection and try again."
  | .REPO_NOT_FOUND =>
      "Repository not found or access denied. Please check the URL and your permissions."
  | .TIMEOUT =>
      "Clone operation timed out. The repository might be too large or the connection is slow.\nPlease try again."
  | .GIT_NOT_INSTALLED =>
      "Git is not installed. Please install Git from https://git-scm.com/"
  | .INVALID_URL =>
      "Invalid Git repository URL. Please use HTTPS or SSH format."
  | .DIR_EXISTS =>
      "Directory already exists at destination. Please choose a different location or remove the existing directory."
  | .UNKNOWN =>
      "Failed to clone repository. Please check the URL and try again."

/-- `getCloneErrorMessage(errorCode, customMessage?)` of `cloneErrors.ts`:
`customMessage || CloneErrorMessages[errorCode]`. -/
def getCloneErrorMessage (errorCode : CloneErrorCode)
    (customMessage : Option String) : String :=
  jsOrStr customMessage (CloneErrorMessages errorCode)

/-- `detectCloneErrorCode(errorMessage)` of `cloneErrors.ts`: ordered
keyword tests over the lowercased message, first match wins. -/
def detectCloneErrorCode (errorMessage : String) : CloneErrorCode :=
  let msg := strLower errorMessage
  if strContains msg "cancelled by user" then .CANCELLED
  else if strContains msg "host key verification failed"
      || strContains msg "permission denied (publickey)" then .SSH_AUTH_FAILED
  else if strContains msg "authentication failed"
      || strContains msg "could not read username"
      || strContains msg "could not read password" then .AUTH_REQUIRED
  else if strContains msg "could not resolve hostname"
      || strContains msg "network"
      || strContains msg "connection" then .NETWORK_ERROR
  else if strContains msg "not found" || strContains msg "404" then .REPO_NOT_FOUND
  else if strContains msg "timed out" || strContains msg "timeout" then .TIMEOUT
  else if strContains msg "git is not installed"
      || strContains msg "git: command not found" then .GIT_NOT_INSTALLED
  else if strContains msg "invalid" && strContains msg "url" then .INVALID_URL
  else if strContains msg "already exists" then .DIR_EXISTS
  else .UNKNOWN

/-- The fixed, ordered rule set the spec describes for classification:
each rule is a predicate on the lowercased message paired with the code it
yields; the textual rule order of `detectCloneErrorCode` is preserved. -/
def cloneErrorRules : List ((String → Bool) × CloneErrorCode) :=
  [ (fun m => strContains m "cancelled by user", .CANCELLED),
    (fun m => strContains m "host key verification failed"
        || strContains m "permission denied (publickey)", .SSH_AUTH_FAILED),
    (fun m => strContains m "authentication failed"
        || strContains m "could not read username"
        || strContains m "could not read password", .AUTH_REQUIRED),
    (fun m => strContains m "could not resolve hostname"
        || strContains m "network"
        || strContains m "connection", .NETWORK_ERROR),
    (fun m => strContains m "not found" || strContains m "404", .REPO_NOT_FOUND),
    (fun m => strContains m "timed out" || strContains m "timeout", .TIMEOUT),
    (fun m => strContains m "git is not installed"
        || strContains m "git: command not found", .GIT_NOT_INSTALLED),
    (fun m => strContains m "invalid" && strContains m "url", .INVALID_URL),
    (fun m => strContains m "already exists", .DIR_EXISTS) ]

/-- Spec-side evaluator of an ordered rule set: scan the rules in order and
return the code of the first rule whose predicate matches; `UNKNOWN` when no
rule matches. -/
def firstMatchingCode : List ((String → Bool) × CloneErrorCode) → String → CloneErrorCode
  | [], _ => .UNKNOWN
  | r :: rs, m => if r.1 m then r.2 else firstMatchingCode rs m

/-! ## `src/renderer/hooks/useClone.ts` -/

/-- `status` of the store's clone task record:
`idle | cloning | success | failed | cancelled`. -/
inductive CloneStatus where
  | idle
  | cloning
  | success
  | failed
  | cancelled
  deriving DecidableEq, Repr

/-- The store's clone task record (fields as written by
`updateCloneState` in `useClone.ts`). -/
structure CloneState where
  taskId : Option String
  url : String
  destClonePath : Option String
  status : CloneStatus
  progress : Int
  error : Option String
  errorCode : Option String
  clonePath : Option String
  startTime : Option Int
  deriving DecidableEq, Repr

/-- The clone task record before any clone was started. -/
def initialCloneState : CloneState :=
  { taskId := none, url := "", destClonePath := none, status := .idle,
    progress := 0, error := none, errorCode := none, clonePath := none,
    startTime := none }

/-- The local state `useClone` keeps alongside the store record:
`currentTaskIdRef` and `abortControllerRef` (`none` = no controller,
`some b` = a controller whose signal's `aborted` flag is `b`). -/
structure CloneFlowState where
  clone : CloneState
  currentTaskId : Option String
  abortCtrl : Option Bool
  deriving DecidableEq, Repr

/-- `validateGitUrl(url)` of `useClone.ts`: the trimmed url must start with
`http://`, `https://` or `git@`, or end with `.git`. -/
def validateGitUrl (url : String) : Bool :=
  let trimmedUrl := jsTrim url
  strStartsWith trimmedUrl "http://"
    || strStartsWith trimmedUrl "https://"
    || strStartsWith trimmedUrl "git@"
    || strEndsWith trimmedUrl ".git"

/-- A clone progress event pushed on topic `git.clone.progress`:
`{taskId, percent, message}`. -/
structure ProgressEvent where
  taskId : String
  percent : ℚ
  message : String
  deriving DecidableEq, Repr

/-- The consumer-side display state behind the `onCloneStart` callback
(`AddRepoMenu.tsx` keeps `isCloning`, `cloneProgress`, `currentTaskId`). -/
structure ProgressDisplay where
  isCloning : Bool
  cloneProgress : Int
  displayTaskId : Option String
  deriving DecidableEq, Repr

/-- `handleCloneStart(progress, taskId)` of `AddRepoMenu.tsx`. -/
def handleCloneStart (_d : ProgressDisplay) (progress : Int) (taskId : String) :
    ProgressDisplay :=
  { isCloning := true, cloneProgress := progress, displayTaskId := some taskId }

/-- `handleProgress(data)` of `useClone.ts` (the identical filter also
appears in the legacy `CloneInput.tsx` handler): only an event whose
`taskId` equals `currentTaskIdRef.current` reaches the display callback,
with `Math.round(data.percent || 0)`. -/
def handleProgress (currentTaskId : Option String) (ev : ProgressEvent)
    (d : ProgressDisplay) : ProgressDisplay :=
  if some ev.taskId = currentTaskId then
    handleCloneStart d (jsRound (jsOr0 ev.percent)) ev.taskId
  else d

/-- Outcome of the pre-RPC phase of `cloneUrl(url)` (`useClone.ts` up to and
including the `request('git.clone', …)` send): the store's clone record
after the phase, whether the RPC was issued, the titles of toasts shown,
and whether a fresh task record was written. -/
structure CloneStartResult where
  cloneState : CloneState
  rpcIssued : Bool
  toasts : List String
  taskRecordWritten : Bool
  deriving DecidableEq, Repr

/-- The pre-RPC phase of `cloneUrl(url)`:
guard on empty input / clone already running, `validateGitUrl`, the
directory-selection collaborator (`available` = the electron capability
exists, `picked` = its result, `none` meaning the user cancelled), then the
`updateCloneState({status:'cloning', …})` write and the `git.clone` send.
`tid` stands for the generated task id and `now` for `Date.now()`. -/
def cloneUrlStart (url : String) (st : CloneState) (available : Bool)
    (picked : Option String) (tid : String) (now : Int) : CloneStartResult :=
  let trimmedUrl := jsTrim url
  if trimmedUrl = "" ∨ st.status = .cloning then
    { cloneState := st, rpcIssued := false, toasts := [], taskRecordWritten := false }
  else if validateGitUrl trimmedUrl = false then
    { cloneState := st, rpcIssued := false, toasts := ["Invalid URL"],
      taskRecordWritten := false }
  else
    match (if available then picked else none), (if available then ([] : List String) else ["Error"]) with
    | none, selToasts =>
        { cloneState := st, rpcIssued := false, toasts := selToasts,
          taskRecordWritten := false }
    | some dest, selToasts =>
        { cloneState :=
            { taskId := some tid, url := trimmedUrl, destClonePath := some dest,
              status := .cloning, progress := 0, error := none, errorCode := none,
              clonePath := none, startTime := some now },
          rpcIssued := true, toasts := selToasts, taskRecordWritten := true }

/-- `cancelClone()` of `useClone.ts`: no-op unless a task id is held and the
status is `cloning`; otherwise aborts the controller and immediately writes
`status:'cancelled'` (the `git.clone.cancel` RPC is fire-and-forget). -/
def cancelClone (s : CloneFlowState) : CloneFlowState :=
  match s.currentTaskId with
  | none => s
  | some _ =>
    if s.clone.status = .cloning then
      { s with
        abortCtrl := s.abortCtrl.map (fun _ => true),
        clone :=
          { s.clone with
            status := .cancelled,
            error := some "Clone operation cancelled by user",
            errorCode := some "CANCELLED" } }
    else s

/-- How the awaited `git.clone` promise settles: a structured backend
response `{success, data, error, errorCode}` (with `data` carrying
`clonePath`), or a rejection (timeout / transport) with a message. -/
inductive CloneSettled where
  | response (success : Bool) (data : Option String) (error : Option String)
      (errorCode : Option String)
  | thrown (message : String)
  deriving DecidableEq, Repr

/-- The `finally` block of `cloneUrl`: clear `currentTaskIdRef` and
`abortControllerRef`. -/
def finalizeClone (s : CloneFlowState) : CloneFlowState :=
  { s with currentTaskId := none, abortCtrl := none }

/-- The response-handling tail of `cloneUrl` (`useClone.ts` after the
`await`): the `!success || !data` branch writes a failed/cancelled record
(then, for non-cancelled codes, throws into the `catch`, whose first action
is the aborted check); the success branch writes `status:'success'`. -/
def handleCloneSettled (s : CloneFlowState) (r : CloneSettled) : CloneFlowState :=
  match r with
  | .response success data error errorCode =>
    if success = false ∨ data = none then
      let ec := jsOrStr errorCode "UNKNOWN"
      let s1 :=
        { s with
          clone :=
            { s.clone with
              status := if ec = "CANCELLED" then .cancelled else .failed,
              error := some (jsOrStr error "Clone failed"),
              errorCode := some ec } }
      if ec = "CANCELLED" then finalizeClone s1
      else if s1.abortCtrl.getD false then finalizeClone s1
      else
        let msg := jsOrStr error "Clone failed"
        let ec2 := detectCloneErrorCode msg
        finalizeClone
          { s1 with
            clone :=
              { s1.clone with
                status := if ec2 = .CANCELLED then .cancelled else .failed,
                error := some msg,
                errorCode := some ec2.str } }
    else
      finalizeClone
        { s with
          clone :=
            { s.clone with
              status := .success,
              progress := 100,
              clonePath := data } }
  | .thrown message =>
    if s.abortCtrl.getD false then finalizeClone s
    else
      let ec2 := detectCloneErrorCode message
      finalizeClone
        { s with
          clone :=
            { s.clone with
              status := if ec2 = .CANCELLED then .cancelled else .failed,
              error := some message,
              errorCode := some ec2.str } }

/-! ## Session-scoped input state (store helpers quoted in
`src/unnamed/part_001`, hook in `src/unnamed/part_003`) -/

/-- `PlanMode`: `'normal' | 'plan' | 'brainstorm'`. -/
inductive PlanMode where
  | normal
  | plan
  | brainstorm
  deriving DecidableEq, Repr

/-- The non-null values of `ThinkingLevel`; the TS type
`null | 'low' | 'medium' | 'high'` is `Option ThinkingLevel` here. -/
inductive ThinkingLevel where
  | low
  | medium
  | high
  deriving DecidableEq, Repr

/-- `SessionInputState` of the store (`part_001`), extended by the
`thinkingEnabled` flag added by the 2025-12-11 design doc. The two pasted
maps are association lists. -/
structure SessionInputState where
  value : String
  cursorPosition : Int
  historyIndex : Option Int
  draftInput : String
  planMode : PlanMode
  thinking : Option ThinkingLevel
  thinkingEnabled : Bool
  pastedTextMap : List (String × String)
  pastedImageMap : List (String × String)
  deriving DecidableEq, Repr

/-- `defaultSessionInputState` (`part_001`; `thinkingEnabled` defaults to
`false` per the 2025-12-11 design doc). -/
def defaultSessionInputState : SessionInputState :=
  { value := "", cursorPosition := 0, historyIndex := none, draftInput := "",
    planMode := .normal, thinking := none, thinkingEnabled := false,
    pastedTextMap := [], pastedImageMap := [] }

/-- The slice of the main store the session-input helpers touch:
`inputBySession`, a map from session id to `SessionInputState`. -/
structure InputStore where
  inputBySession : List (String × SessionInputState)
  deriving DecidableEq, Repr

/-- The store before any session input was written. -/
def emptyInputStore : InputStore :=
  { inputBySession := [] }

/-- JS object property read `inputBySession[sessionId]` on the
association-list model. -/
def lookupInput : List (String × SessionInputState) → String → Option SessionInputState
  | [], _ => none
  | (k, v) :: rest, sid => if k == sid then some v else lookupInput rest sid

/-- JS spread `{...inputBySession, [sessionId]: v}`: replace the entry for
the key, or add one. -/
def insertInput : List (String × SessionInputState) → String → SessionInputState →
    List (String × SessionInputState)
  | [], sid, v => [(sid, v)]
  | (k, w) :: rest, sid, v =>
    if k == sid then (k, v) :: rest else (k, w) :: insertInput rest sid v

/-- `getSessionInput(sessionId)` (`part_001`):
`inputBySession[sessionId] || defaultSessionInputState`. -/
def getSessionInput (st : InputStore) (sessionId : String) : SessionInputState :=
  (lookupInput st.inputBySession sessionId).getD defaultSessionInputState

/-- `setSessionInput(sessionId, state)` (`part_001`): spread the partial
`state` over the current (or default) record and store it back. The partial
record is rendered as the field-update function `f`; every hook call site
passes a single-field partial. -/
def setSessionInput (st : InputStore) (sessionId : String)
    (f : SessionInputState → SessionInputState) : InputStore :=
  { st with
    inputBySession :=
      insertInput st.inputBySession sessionId
        (f ((lookupInput st.inputBySession sessionId).getD defaultSessionInputState)) }

/-- The `thinking` successor used by `toggleThinking` (`part_003`):
`null → low → medium → high → null`. -/
def nextThinkingLevel : Option ThinkingLevel → Option ThinkingLevel
  | none => some .low
  | some .low => some .medium
  | some .medium => some .high
  | some .high => none

/-- `toggleThinking` of `useInputState` (`part_003`): guarded by
`sessionId && thinkingEnabled`; when enabled it writes the successor of the
current `thinking` through `setSessionInput`. -/
def toggleThinking (st : InputStore) (sessionId : String) : InputStore :=
  let s := getSessionInput st sessionId
  if s.thinkingEnabled then
    setSessionInput st sessionId (fun cur => { cur with thinking := nextThinkingLevel s.thinking })
  else st

/-- `setThinking(level)` of `useInputState` (`part_003`): writes `thinking`
unconditionally (no `thinkingEnabled` guard). -/
def setThinking (st : InputStore) (sessionId : String)
    (level : Option ThinkingLevel) : InputStore :=
  setSessionInput st sessionId (fun cur => { cur with thinking := level })

/-- `setThinkingEnabled(enabled)` of `useInputState` (`part_003`): writes
`thinkingEnabled` unconditionally. -/
def setThinkingEnabled (st : InputStore) (sessionId : String)
    (enabled : Bool) : InputStore :=
  setSessionInput st sessionId (fun cur => { cur with thinkingEnabled := enabled })

/-! ## Entity store: repositories / workspaces cascade -/

/-- A repository record (the fields the cascade invariants mention). -/
structure Repo where
  path : String
  name : String
  workspaceIds : List String
  deriving DecidableEq, Repr

/-- A workspace record (the fields the cascade invariants mention). -/
structure Workspace where
  id : String
  repoPath : String
  branch : String
  deriving DecidableEq, Repr

/-- The entity-store slice the cascade touches: repositories, workspaces,
and session-scoped state keyed by workspace id (each entry pairs a
workspace id with one piece of session state). -/
structure EntityStore where
  repos : List Repo
  workspaces : List Workspace
  sessionsByWorkspace : List (String × String)
  deriving DecidableEq, Repr

/-- The empty entity store. -/
def initialEntityStore : EntityStore :=
  { repos := [], workspaces := [], sessionsByWorkspace := [] }

/-- Modelled from the spec: `addRepo(repo)` of `store.tsx` (absent from the
sources; §4.5: fails if `repo.path` is already present, otherwise inserts). -/
def addRepo (r : Repo) (s : EntityStore) : EntityStore :=
  if s.repos.any (fun r2 => r2.path == r.path) then s
  else { s with repos := s.repos ++ [r] }

/-- Modelled from the spec: `addWorkspace(ws)` of `store.tsx` (absent from
the sources; §4.5: fails if the referenced repository does not exist,
otherwise inserts the workspace and appends its id to the parent's
`workspaceIds` in the same atomic update, without duplicating an id). -/
def addWorkspace (w : Workspace) (s : EntityStore) : EntityStore :=
  if s.repos.any (fun r => r.path == w.repoPath) = false then s
  else if s.workspaces.any (fun w2 => w2.id == w.id) then s
  else
    { s with
      workspaces := s.workspaces ++ [w],
      repos := s.repos.map (fun r =>
        if r.path == w.repoPath then
          { r with
            workspaceIds :=
              if r.workspaceIds.contains w.id then r.workspaceIds
              else r.workspaceIds ++ [w.id] }
        else r) }

/-- The ids of the workspaces `deleteRepo p` removes: those whose
`repoPath` equals `p`. -/
def removedWorkspaceIds (s : EntityStore) (p : String) : List String :=
  (s.workspaces.filter (fun w => w.repoPath == p)).map (fun w => w.id)

/-- Modelled from the spec: `deleteRepo(path)` of `store.tsx` (absent from
the sources; §4.5: removes the repository and, in the same atomic update,
every workspace whose `repoPath === path` and every session-scoped state
keyed by those workspace ids). -/
def deleteRepo (p : String) (s : EntityStore) : EntityStore :=
  { repos := s.repos.filter (fun r => r.path != p),
    workspaces := s.workspaces.filter (fun w => w.repoPath != p),
    sessionsByWorkspace :=
      s.sessionsByWorkspace.filter (fun e => !((removedWorkspaceIds s p).contains e.1)) }

/-- One call in a sequence of entity-store mutations. -/
inductive StoreAction where
  | addRepoA (r : Repo)
  | addWorkspaceA (w : Workspace)
  | deleteRepoA (p : String)
  deriving Repr

/-- Apply one store action. -/
def applyAction (s : EntityStore) : StoreAction → EntityStore
  | .addRepoA r => addRepo r s
  | .addWorkspaceA w => addWorkspace w s
  | .deleteRepoA p => deleteRepo p s

/-- Apply a sequence of store actions in order. -/
def applyActions (acts : List StoreAction) (s : EntityStore) : EntityStore :=
  acts.foldl applyAction s

/-! ## Helper lemmas -/

/-- A list filtered by a predicate satisfies that predicate everywhere. -/
theorem all_filter_self {α : Type} (f : α → Bool) :
    ∀ l : List α, ((l.filter f).all f) = true := by
  intro l
  induction l with
  | nil => rfl
  | cons a t ih =>
    by_cases h : f a = true
    · simp [List.filter_cons, h, ih]
    · simp [List.filter_cons, h, ih]

/-- If no rule of an ordered rule set matches, the scan yields `UNKNOWN`. -/
theorem firstMatchingCode_eq_unknown (m : String) :
    ∀ rs : List ((String → Bool) × CloneErrorCode),
      (∀ r ∈ rs, r.1 m = false) → firstMatchingCode rs m = .UNKNOWN := by
  intro rs
  induction rs with
  | nil => intro _; rfl
  | cons r rest ih =>
    intro h
    have hr : r.1 m = false := h r (List.mem_cons_self r rest)
    have hrest := ih (fun r2 h2 => h r2 (List.mem_cons_of_mem r h2))
    simp [firstMatchingCode, hr, hrest]

/-- `jsOr0` is the identity on the rationals. -/
theorem jsOr0_eq (q : ℚ) : jsOr0 q = q := by
  unfold jsOr0
  split
  · rename_i h
    rw [h]
  · rfl

/-! ## Claims -/

/-- C7: `detectCloneErrorCode` classifies every error message by
keyword-matching the lowercased text against the fixed ordered rule set
`cloneErrorRules`, first match wins; a message containing
`cancelled by user` yields `CANCELLED` regardless of later keywords; a
message matching no rule yields `UNKNOWN`. -/
theorem detectCloneErrorCode_first_match_spec :
    (∀ msg, detectCloneErrorCode msg = firstMatchingCode cloneErrorRules (strLower msg)) ∧
    (∀ msg, strContains (strLower msg) "cancelled by user" = true →
      detectCloneErrorCode msg = CloneErrorCode.CANCELLED) ∧
    (∀ msg, (∀ r ∈ cloneErrorRules, r.1 (strLower msg) = false) →
      detectCloneErrorCode msg = CloneErrorCode.UNKNOWN) := by
  refine ⟨fun msg => rfl, fun msg h => ?_, fun msg h => ?_⟩
  · simp [detectCloneErrorCode, h]
  · have h1 : detectCloneErrorCode msg = firstMatchingCode cloneErrorRules (strLower msg) := rfl
    rw [h1]
    exact firstMatchingCode_eq_unknown (strLower msg) cloneErrorRules h

/-- Witness for C7: a message that contains `cancelled by user` and also
keywords of later rules (`connection`, a NETWORK_ERROR keyword) is
classified `CANCELLED` — the first rule wins. -/
theorem detectCloneErrorCode_first_match_spec_witness :
    detectCloneErrorCode "Operation CANCELLED by user: connection reset" =
      CloneErrorCode.CANCELLED :=
  detectCloneErrorCode_first_match_spec.2.1
    "Operation CANCELLED by user: connection reset" rfl

/-- C10: `getCloneErrorMessage` returns the canonical
`CloneErrorMessages[c]` when the custom message is absent or empty, and
returns any non-empty custom message unchanged, ignoring the code. -/
theorem getCloneErrorMessage_spec :
    (∀ c, getCloneErrorMessage c none = CloneErrorMessages c) ∧
    (∀ c, getCloneErrorMessage c (some "") = CloneErrorMessages c) ∧
    (∀ c m, m ≠ "" → getCloneErrorMessage c (some m) = m) := by
  refine ⟨fun c => rfl, fun c => rfl, fun c m h => ?_⟩
  simp [getCloneErrorMessage, jsOrStr, h]

/-- Witness for C10: a non-empty custom message is returned unchanged. -/
theorem getCloneErrorMessage_spec_witness :
    getCloneErrorMessage CloneErrorCode.TIMEOUT (some "custom message") =
      "custom message" :=
  getCloneErrorMessage_spec.2.2 CloneErrorCode.TIMEOUT "custom message" (by decide)

/-- C8: for a session id with no stored entry, `getSessionInput` returns
the documented default value object (value `''`, cursorPosition `0`,
historyIndex `null`, draftInput `''`, planMode `'normal'`, thinking `null`,
empty pasted maps) — never `undefined` (the function is total into
`SessionInputState`). -/
theorem getSessionInput_unknown_default :
    ∀ (st : InputStore) (sid : String),
      lookupInput st.inputBySession sid = none →
      getSessionInput st sid = defaultSessionInputState ∧
      (getSessionInput st sid).value = "" ∧
      (getSessionInput st sid).cursorPosition = 0 ∧
      (getSessionInput st sid).historyIndex = none ∧
      (getSessionInput st sid).draftInput = "" ∧
      (getSessionInput st sid).planMode = PlanMode.normal ∧
      (getSessionInput st sid).thinking = none ∧
      (getSessionInput st sid).pastedTextMap = [] ∧
      (getSessionInput st sid).pastedImageMap = [] := by
  intro st sid h
  simp [getSessionInput, h, defaultSessionInputState]

/-- Witness for C8: the empty store has no entry for `"s1"`, and the getter
returns the default object there. -/
theorem getSessionInput_unknown_default_witness :
    getSessionInput emptyInputStore "s1" = defaultSessionInputState :=
  (getSessionInput_unknown_default emptyInputStore "s1" rfl).1

/-- Counterexample for C6: `setThinking` is an input-state operation that
does not preserve the invariant — starting from the default state
(`thinkingEnabled:false`, `thinking:null`), `setThinking('high')` leaves
`thinkingEnabled` false but stores a non-null `thinking`. -/
theorem setThinking_breaks_disabled_invariant :
    (getSessionInput (setThinking emptyInputStore "s1" (some ThinkingLevel.high)) "s1").thinkingEnabled
        = false ∧
    (getSessionInput (setThinking emptyInputStore "s1" (some ThinkingLevel.high)) "s1").thinking
        = some ThinkingLevel.high := by
  exact ⟨rfl, rfl⟩

/-- C6 (amended): toggling the thinking depth while `thinkingEnabled` is
false is a no-op that leaves the session's stored state (indeed the whole
store) unchanged; the blanket invariant `thinking = null` whenever
`thinkingEnabled = false` is not preserved by `setThinking`/
`setThinkingEnabled`, which write their field unconditionally. -/
theorem toggleThinking_disabled_noop :
    ∀ (st : InputStore) (sid : String),
      (getSessionInput st sid).thinkingEnabled = false →
      toggleThinking st sid = st := by
  intro st sid h
  simp [toggleThinking, h]

/-- Witness for C6: toggling on the empty store (default state, thinking
disabled) changes nothing. -/
theorem toggleThinking_disabled_noop_witness :
    toggleThinking emptyInputStore "s1" = emptyInputStore :=
  toggleThinking_disabled_noop emptyInputStore "s1" rfl

/-- C3: a progress event whose `taskId` differs from the currently active
clone task id is discarded — the display state is left unchanged. -/
theorem progress_event_other_task_ignored :
    ∀ (currentTaskId : Option String) (ev : ProgressEvent) (d : ProgressDisplay),
      some ev.taskId ≠ currentTaskId →
      handleProgress currentTaskId ev d = d := by
  intro c ev d h
  simp [handleProgress, h]

/-- Witness for C3 (the spec's scenario): progress 45 is displayed for task
`t1`; a stray event `{taskId:'t0', percent:99}` leaves the display at 45. -/
theorem progress_event_other_task_ignored_witness :
    handleProgress (some "t1")
        { taskId := "t0", percent := 99, message := "stale" }
        { isCloning := true, cloneProgress := 45, displayTaskId := some "t1" } =
      { isCloning := true, cloneProgress := 45, displayTaskId := some "t1" } :=
  progress_event_other_task_ignored (some "t1")
    { taskId := "t0", percent := 99, message := "stale" }
    { isCloning := true, cloneProgress := 45, displayTaskId := some "t1" }
    (by decide)

/-- Counterexample for C4: the handler only rounds, it does not clamp — an
accepted event with `percent = 150` makes the displayed value 150, outside
the claimed 0–100 range. -/
theorem progress_not_clamped_counterexample :
    (handleProgress (some "t1")
        { taskId := "t1", percent := 150, message := "m" }
        { isCloning := true, cloneProgress := 0, displayTaskId := some "t1" }).cloneProgress
        = 150 ∧
    ¬((handleProgress (some "t1")
        { taskId := "t1", percent := 150, message := "m" }
        { isCloning := true, cloneProgress := 0, displayTaskId := some "t1" }).cloneProgress
        ≤ 100) := by
  have hv : (handleProgress (some "t1")
      { taskId := "t1", percent := 150, message := "m" }
      { isCloning := true, cloneProgress := 0, displayTaskId := some "t1" }).cloneProgress
      = jsRound (jsOr0 150) := by
    simp [handleProgress, handleCloneStart]
  have h150 : jsRound (jsOr0 150) = 150 := by
    rw [jsOr0_eq, jsRound, Int.floor_eq_iff]
    norm_num
  rw [hv, h150]
  refine ⟨rfl, ?_⟩
  decide

/-- C4 (amended): the displayed value for an accepted progress event is
`Math.round(percent || 0)` — rounded to a whole number but not clamped;
for every input percent within 0–100 the displayed value is an integer
between 0 and 100 inclusive. -/
theorem progress_rounded_in_range :
    ∀ (currentTaskId : Option String) (ev : ProgressEvent) (d : ProgressDisplay),
      some ev.taskId = currentTaskId →
      0 ≤ ev.percent → ev.percent ≤ 100 →
      (handleProgress currentTaskId ev d).cloneProgress = jsRound (jsOr0 ev.percent) ∧
      0 ≤ (handleProgress currentTaskId ev d).cloneProgress ∧
      (handleProgress currentTaskId ev d).cloneProgress ≤ 100 := by
  intro c ev d hm h0 h100
  have hpro : handleProgress c ev d =
      handleCloneStart d (jsRound (jsOr0 ev.percent)) ev.taskId := by
    simp [handleProgress, hm]
  have hval : (handleProgress c ev d).cloneProgress = jsRound (jsOr0 ev.percent) := by
    rw [hpro]
    rfl
  refine ⟨hval, ?_, ?_⟩
  · rw [hval, jsOr0_eq, jsRound]
    have : (0 : ℚ) ≤ ev.percent + 1 / 2 := by linarith
    exact Int.le_floor.mpr (by exact_mod_cast this)
  · rw [hval, jsOr0_eq, jsRound]
    have h1 : ev.percent + 1 / 2 < ((101 : ℤ) : ℚ) := by push_cast; linarith
    have h2 : ⌊ev.percent + 1 / 2⌋ < 101 := Int.floor_lt.mpr h1
    omega

/-- Witness for C4 (amended): an in-range fractional percent (45.4) rounds
to 45, inside 0–100. -/
theorem progress_rounded_in_range_witness :
    (handleProgress (some "t1")
        { taskId := "t1", percent := 227 / 5, message := "m" }
        { isCloning := false, cloneProgress := 0, displayTaskId := none }).cloneProgress
        = jsRound (jsOr0 (227 / 5)) ∧
    0 ≤ (handleProgress (some "t1")
        { taskId := "t1", percent := 227 / 5, message := "m" }
        { isCloning := false, cloneProgress := 0, displayTaskId := none }).cloneProgress ∧
    (handleProgress (some "t1")
        { taskId := "t1", percent := 227 / 5, message := "m" }
        { isCloning := false, cloneProgress := 0, displayTaskId := none }).cloneProgress
        ≤ 100 :=
  progress_rounded_in_range (some "t1")
    { taskId := "t1", percent := 227 / 5, message := "m" }
    { isCloning := false, cloneProgress := 0, displayTaskId := none }
    rfl (by norm_num) (by norm_num)

/-- Counterexample for C5: an input whose trimmed form is empty fails the
URL/SSH shape check, yet `cloneUrl` returns silently — no classified-error
toast is shown (and, a fortiori, no RPC is sent), contradicting "rejects
locally with a classified error" for every shape-failing input. -/
theorem empty_url_silent_no_toast :
    validateGitUrl (jsTrim "") = false ∧
    cloneUrlStart "" initialCloneState true (some "/d") "t1" 0 =
      { cloneState := initialCloneState, rpcIssued := false, toasts := [],
        taskRecordWritten := false } := by
  exact ⟨rfl, rfl⟩

/-- C5 (amended): whenever the trimmed url fails the accepted URL/SSH shape
check, `cloneUrl` issues no RPC, writes no clone task record and leaves the
clone state unchanged; when additionally the trimmed url is non-empty and
no clone is in progress, it rejects locally with the classified
`Invalid URL` error toast before contacting the backend. -/
theorem invalid_url_rejected_locally :
    (∀ (url : String) (st : CloneState) (available : Bool) (picked : Option String)
        (tid : String) (now : Int),
      validateGitUrl (jsTrim url) = false →
      (cloneUrlStart url st available picked tid now).rpcIssued = false ∧
      (cloneUrlStart url st available picked tid now).taskRecordWritten = false ∧
      (cloneUrlStart url st available picked tid now).cloneState = st) ∧
    (∀ (url : String) (st : CloneState) (available : Bool) (picked : Option String)
        (tid : String) (now : Int),
      jsTrim url ≠ "" → st.status ≠ CloneStatus.cloning →
      validateGitUrl (jsTrim url) = false →
      cloneUrlStart url st available picked tid now =
        { cloneState := st, rpcIssued := false, toasts := ["Invalid URL"],
          taskRecordWritten := false }) := by
  constructor
  · intro url st available picked tid now hv
    by_cases h1 : jsTrim url = "" ∨ st.status = CloneStatus.cloning
    · simp [cloneUrlStart, h1]
    · simp [cloneUrlStart, h1, hv]
  · intro url st available picked tid now h1 h2 hv
    simp [cloneUrlStart, h1, h2, hv]

/-- Witness for C5 (amended): `bad` fails the shape check while idle, and
is rejected with the `Invalid URL` toast, no RPC, no task record. -/
theorem invalid_url_rejected_locally_witness :
    cloneUrlStart "bad" initialCloneState true (some "/d") "t1" 0 =
      { cloneState := initialCloneState, rpcIssued := false,
        toasts := ["Invalid URL"], taskRecordWritten := false } :=
  invalid_url_rejected_locally.2 "bad" initialCloneState true (some "/d") "t1" 0
    (by decide) (by decide) (by decide)

/-- C9: when the directory-selection collaborator is available but returns
`null` (user cancelled the picker) and the url passes validation,
`cloneUrl` aborts silently from an idle state: the clone state is
unchanged and still idle, no RPC is issued, no toast is shown, no task
record is written. -/
theorem clone_picker_cancel_silent :
    ∀ (url : String) (st : CloneState) (tid : String) (now : Int),
      st.status = CloneStatus.idle →
      validateGitUrl (jsTrim url) = true →
      cloneUrlStart url st true none tid now =
        { cloneState := st, rpcIssued := false, toasts := [],
          taskRecordWritten := false } ∧
      (cloneUrlStart url st true none tid now).cloneState.status = CloneStatus.idle := by
  intro url st tid now hidle hv
  have hne : jsTrim url ≠ "" := by
    intro h
    rw [h] at hv
    exact absurd hv (by decide)
  have hst : st.status ≠ CloneStatus.cloning := by
    rw [hidle]
    intro hc
    cases hc
  constructor
  · simp [cloneUrlStart, hne, hst, hv]
  · simp [cloneUrlStart, hne, hst, hv, hidle]

/-- Witness for C9: a valid https url with the picker cancelled leaves the
initial (idle) state untouched, with no RPC and no toast. -/
theorem clone_picker_cancel_silent_witness :
    cloneUrlStart "https://github.com/user/repo.git" initialCloneState true none "t1" 0 =
      { cloneState := initialCloneState, rpcIssued := false, toasts := [],
        taskRecordWritten := false } :=
  (clone_picker_cancel_silent "https://github.com/user/repo.git" initialCloneState
    "t1" 0 rfl (by decide)).1

/-- C1: after any sequence of `addRepo`/`addWorkspace`/`deleteRepo` calls,
`deleteRepo p` leaves a store in which no repository has path `p`, no
workspace has `repoPath = p`, and no session-scoped state keyed by a
removed workspace id remains — the whole cascade is one atomic update, so
no partial-cascade state is reachable. -/
theorem deleteRepo_cascades_atomically (acts : List StoreAction) (p : String) :
    ((deleteRepo p (applyActions acts initialEntityStore)).repos.all
        (fun r => r.path != p)) = true ∧
    ((deleteRepo p (applyActions acts initialEntityStore)).workspaces.all
        (fun w => w.repoPath != p)) = true ∧
    ((deleteRepo p (applyActions acts initialEntityStore)).sessionsByWorkspace.all
        (fun e => !((removedWorkspaceIds (applyActions acts initialEntityStore) p).contains e.1)))
        = true := by
  refine ⟨?_, ?_, ?_⟩
  · exact all_filter_self (fun r => r.path != p) (applyActions acts initialEntityStore).repos
  · exact all_filter_self (fun w => w.repoPath != p) (applyActions acts initialEntityStore).workspaces
  · exact all_filter_self
      (fun e => !((removedWorkspaceIds (applyActions acts initialEntityStore) p).contains e.1))
      (applyActions acts initialEntityStore).sessionsByWorkspace

/-- A clone in flight on task `t1`: the store record says `cloning`, the
hook holds the task id and a live (not yet aborted) abort controller. -/
def cloningFlowExample : CloneFlowState :=
  { clone :=
      { initialCloneState with
        status := .cloning, taskId := some "t1",
        url := "https://github.com/u/r.git", progress := 40 },
    currentTaskId := some "t1",
    abortCtrl := some false }

/-- C2 evaluation: `cancelClone` does flip the local status to `cancelled`
immediately, but `cancelled` is not absorbing — a later structured success
response for the same task flips the status to `success`, and a later
structured failure response with a non-cancelled code flips it to `failed`
(the status write happens before the aborted check in the catch block);
only a later rejected promise (thrown error) leaves it `cancelled`. -/
theorem cancelClone_not_absorbing :
    (cancelClone cloningFlowExample).clone.status = CloneStatus.cancelled ∧
    (handleCloneSettled (cancelClone cloningFlowExample)
        (CloneSettled.response true (some "/tmp/repo") none none)).clone.status =
      CloneStatus.success ∧
    (handleCloneSettled (cancelClone cloningFlowExample)
        (CloneSettled.response false none (some "remote hung up unexpectedly")
          (some "NETWORK_ERROR"))).clone.status = CloneStatus.failed ∧
    (handleCloneSettled (cancelClone cloningFlowExample)
        (CloneSettled.thrown "transport closed before response")).clone.status =
      CloneStatus.cancelled := by
  refine ⟨rfl, rfl, rfl, rfl⟩
